import Mathlib

/-!
Verification of the Deputy timesheet-webhook pipeline
(`services/deputy-service/src/timesheet_parser.py`, `main.py`,
`redis_client.py`) and the dashboard status broadcaster
(`services/dashboard-service/src/employee_status.py`).

The Python code is shallowly embedded: JSON payloads become an inductive
`Json` type, Python's loose truthiness/coercion rules become explicit
helper functions, fallible operations (attribute access on objects that
may lack the attribute, `in`/indexing on non-containers) return
`Except PyErr`, and stateful components (the Redis dedupe store, the
in-memory broadcaster) become explicit state-passing functions.
-/

namespace DeputyPipeline

/-- Python exceptions that the embedded code paths can raise. -/
inductive PyErr where
  | attributeError (name : String)
  | typeError (msg : String)
  | keyError (key : String)
  deriving Repr, DecidableEq

/-- JSON values as delivered by `request.json()`.  Numbers are modelled as
integers: every numeric literal the pipeline inspects is an epoch second or
an id, and `_to_number` truncates floats to ints anyway. -/
inductive Json where
  | null
  | bool (b : Bool)
  | num (n : Int)
  | str (s : String)
  | arr (xs : List Json)
  | obj (kvs : List (String × Json))
  deriving Repr, BEq

/-- Python truthiness of a JSON value (`if not payload`, `if not ts_obj`). -/
def Json.truthy : Json → Bool
  | .null => false
  | .bool b => b
  | .num n => n != 0
  | .str s => s != ""
  | .arr xs => !xs.isEmpty
  | .obj kvs => !kvs.isEmpty

/-- First-match association-list lookup, the dict lookup of the embedding. -/
def alookup (kvs : List (String × Json)) (k : String) : Option Json :=
  match kvs.find? (fun p => p.1 == k) with
  | some p => some p.2
  | none => none

/-- Python `str()` on the JSON values the parser stringifies.  Containers are
rendered in a repr-like form; the parser only ever compares or lowercases the
scalar cases. -/
def pyStr : Json → String
  | .null => "None"
  | .bool b => if b then "True" else "False"
  | .num n => toString n
  | .str s => s
  | .arr _ => "[...]"
  | .obj _ => "{...}"

/-! String helpers.  The embedding avoids the standard library's
position-based `String` functions (their well-founded recursion does not
reduce in the kernel) in favour of structural recursion on the character
list, so that every claim can be settled on concrete inputs by `decide`
or `rfl`. -/

/-- Python `str.strip()`: drop leading and trailing whitespace. -/
def pyStrip (s : String) : String :=
  String.mk
    (((s.toList.dropWhile Char.isWhitespace).reverse.dropWhile
        Char.isWhitespace).reverse)

/-- Python `str.lower()` for the ASCII strings the parser compares. -/
def pyLower (s : String) : String :=
  String.mk (s.toList.map Char.toLower)

/-- Python `str.upper()` for the ASCII strings the parser compares. -/
def pyUpper (s : String) : String :=
  String.mk (s.toList.map Char.toUpper)

/-- Substring test on character lists; the empty needle matches anywhere. -/
def listHasSub (hay sub : List Char) : Bool :=
  match hay with
  | [] => sub.isEmpty
  | _ :: t => sub.isPrefixOf hay || listHasSub t sub

/-- Substring test, Python's `needle in haystack` for strings. -/
def strContains (haystack needle : String) : Bool :=
  listHasSub haystack.toList needle.toList

/-- `s.startsWith p` by structural recursion. -/
def strStartsWith (s p : String) : Bool :=
  p.toList.isPrefixOf s.toList

/-- Split a character list at every occurrence of `c`. -/
def splitOnChar (c : Char) : List Char → List (List Char)
  | [] => [[]]
  | x :: t =>
    let r := splitOnChar c t
    if x = c then [] :: r
    else
      match r with
      | h :: rest => (x :: h) :: rest
      | [] => [[x]]

/-- Value of a digit list, `none` unless all characters are digits. -/
def digitsVal (d : List Char) : Option Nat :=
  if d.all Char.isDigit then
    some (d.foldl (fun a c => a * 10 + (c.toNat - 48)) 0)
  else none

/-- Integer value of a numeric string: `int(float(s.strip()))` for the
decimal forms `[±]digits[.digits]` and `[±].digits`; anything else → `none`
(`ValueError` is caught in `_to_number`).  Exponent/inf/nan float syntax is
not modelled — no code path under verification feeds such strings. -/
def strToNum (s : String) : Option Int :=
  let t := (pyStrip s).toList
  let (sign, body) :=
    match t with
    | '-' :: rest => ((-1 : Int), rest)
    | '+' :: rest => ((1 : Int), rest)
    | _ => ((1 : Int), t)
  match splitOnChar '.' body with
  | [intPart] =>
      if intPart.isEmpty then none
      else (digitsVal intPart).map (fun n => sign * (n : Int))
  | [intPart, fracPart] =>
      -- int(float ..) truncates toward zero, so the fraction is dropped
      if intPart.isEmpty && fracPart.isEmpty then none
      else if intPart.isEmpty then
        (digitsVal fracPart).map (fun _ => sign * 0)
      else
        match digitsVal intPart, digitsVal fracPart with
        | some n, some _ => some (sign * (n : Int))
        | _, _ => none
  | _ => none

set_option linter.unusedVariables false

/-- `_to_number` (timesheet_parser.py:61-73): convert a JSON value to an
integer, or `none`.  Python booleans are `int` subclasses, so `True` → 1. -/
def to_number : Json → Option Int
  | .null => none
  | .bool b => some (if b then 1 else 0)
  | .num n => some n
  | .str s => strToNum s
  | .arr _ => none    -- float(str([...])) raises ValueError, caught → None
  | .obj _ => none

/-- `_to_bool` (timesheet_parser.py:76-87). -/
def to_bool : Json → Option Bool
  | .null => none
  | .bool b => some b
  | j =>
    let s := pyLower (pyStrip (pyStr j))
    if s == "true" || s == "1" || s == "yes" then some true
    else if s == "false" || s == "0" || s == "no" then some false
    else none

/-- Python `k in payload`: key test for dicts, membership for lists,
substring for strings; `TypeError` for non-containers. -/
def pyContains (payload : Json) (k : String) : Except PyErr Bool :=
  match payload with
  | .obj kvs => .ok (kvs.any (fun p => p.1 == k))
  | .arr xs => .ok (xs.contains (Json.str k))
  | .str s => .ok (strContains s k)
  | _ => .error (.typeError "argument of type is not iterable")

/-- Python `payload[k]`: dict indexing; `TypeError` for lists/strings indexed
by a string, and for non-subscriptable values. -/
def pyIndex (payload : Json) (k : String) : Except PyErr Json :=
  match payload with
  | .obj kvs =>
    match alookup kvs k with
    | some v => .ok v
    | none => .error (.keyError k)
  | _ => .error (.typeError "indices must be integers")

/-- Python `o.get(k, default)`: only dicts have `.get`; on anything else the
attribute lookup raises `AttributeError`. -/
def pyGetD (o : Json) (k : String) (dflt : Json) : Except PyErr Json :=
  match o with
  | .obj kvs => .ok ((alookup kvs k).getD dflt)
  | _ => .error (.attributeError "get")

/-- `o.get(k)` with the implicit `None` default. -/
def pyGet (o : Json) (k : String) : Except PyErr Json :=
  pyGetD o k .null

/-- `_get_timesheet_object` (timesheet_parser.py:90-113). -/
def get_timesheet_object (payload : Json) : Except PyErr (Option Json) := do
  if payload.truthy = false then
    return none
  -- Try payload.data (array or object)
  if (← pyContains payload "data") then
    let data ← pyIndex payload "data"
    match data with
    | .arr (x :: _) => return some x
    | .obj kvs => return some (Json.obj kvs)
    | _ => pure ()   -- data neither non-empty list nor dict: fall through
  -- Try other common wrappers (returned without any isinstance check)
  if (← pyContains payload "result") then
    return some (← pyIndex payload "result")
  if (← pyContains payload "record") then
    return some (← pyIndex payload "record")
  -- Check if payload itself is the timesheet
  if (← pyContains payload "Id") then
    return some payload
  if (← pyContains payload "StartTime") then
    return some payload
  if (← pyContains payload "IsInProgress") then
    return some payload
  return none

/-- `TimesheetAction` (timesheet_parser.py:18-25). -/
inductive TimesheetAction where
  | clock_in
  | clock_out
  | break_start
  | break_end
  | ignore
  deriving Repr, DecidableEq

/-- The `.value` string of each enum member. -/
def TimesheetAction.value : TimesheetAction → String
  | .clock_in => "clock_in"
  | .clock_out => "clock_out"
  | .break_start => "break_start"
  | .break_end => "break_end"
  | .ignore => "ignore"

/-- `DesiredDndStatus` (timesheet_parser.py:28-32). -/
inductive DesiredDndStatus where
  | take_all_calls
  | do_not_accept_department_calls
  deriving Repr, DecidableEq

/-- `BreakSlot` (timesheet_parser.py:35-43). -/
structure BreakSlot where
  start : Option Int
  «end» : Option Int
  state : String
  type_name : String
  break_type : String
  deriving Repr, DecidableEq

/-- One `Slots` entry → `BreakSlot`, the loop body of
`_get_most_recent_break_slot` (timesheet_parser.py:122-147): non-dict slots
and non-"B" or start-less slots are skipped. -/
def slotToBreak (slot : Json) : Option BreakSlot :=
  match slot with
  | .obj kvs =>
    let str_type := pyUpper (pyStr ((alookup kvs "strType").getD (.str "")))
    if str_type ≠ "B" then none
    else
      match to_number ((alookup kvs "intUnixStart").getD .null) with
      | none => none
      | some start =>
        some {
          start := some start
          «end» := to_number ((alookup kvs "intUnixEnd").getD .null)
          state := pyLower (pyStr ((alookup kvs "strState").getD (.str "")))
          type_name := pyStr ((alookup kvs "strTypeName").getD (.str ""))
          break_type :=
            match alookup kvs "mixedActivity" with
            | some (.obj akvs) => pyStr ((alookup akvs "strBreakType").getD (.str ""))
            | _ => "" }
  | _ => none

/-- `_get_most_recent_break_slot` (timesheet_parser.py:116-154).  The source
stable-sorts the break slots by `b.start or 0` ascending and takes the last
element; that element is the one with the maximal key, latest in original
order among ties, computed here by a fold (ties prefer the later slot). -/
def get_most_recent_break_slot (slots : Json) : Option BreakSlot :=
  match slots with
  | .arr xs =>
    let break_slots := xs.filterMap slotToBreak
    break_slots.foldl
      (fun acc b =>
        match acc with
        | none => some b
        | some a => if (b.start.getD 0) ≥ (a.start.getD 0) then some b else some a)
      none
  | _ => none

/-- `_is_break_in_progress` (timesheet_parser.py:157-165). -/
def is_break_in_progress (break_slot : Option BreakSlot) : Bool :=
  match break_slot with
  | none => false
  | some b =>
    if b.end = none then true
    else if strContains b.state "in progress" || strContains b.state "started" then true
    else false

/-- One step of FNV-1a: xor in the code point, multiply, mask to 32 bits. -/
def fnv1a_step (h : Nat) (c : Char) : Nat :=
  (Nat.xor h c.toNat * 0x01000193) % 4294967296

/-- Lower-case hex digit. -/
def hexDigit (n : Nat) : Char :=
  if n < 10 then Char.ofNat (48 + n) else Char.ofNat (87 + n)

/-- `format(h, "08x")` for `h < 2^32`: 8 lower-case hex digits. -/
def toHex8 (n : Nat) : String :=
  String.mk ((List.range 8).map (fun i => hexDigit (n / 16 ^ (7 - i) % 16)))

/-- `_fnv1a_hash` (timesheet_parser.py:168-174). -/
def fnv1a_hash (s : String) : String :=
  toHex8 (s.toList.foldl fnv1a_step 0x811C9DC5)

/-- `_generate_dedupe_key` (timesheet_parser.py:177-192). -/
def generate_dedupe_key (timesheet_id : Int) (action : TimesheetAction)
    (event_unix : Int) : String :=
  let base := s!"{timesheet_id}|{action.value}|{event_unix}"
  let hash_val := fnv1a_hash base
  let pfx :=   -- prefix_map lookup with "evt" fallback
    match action with
    | .clock_in => "tci"
    | .clock_out => "tco"
    | .break_start => "tbs"
    | .break_end => "tbe"
    | .ignore => "evt"
  s!"{pfx}_{hash_val}"

/-- `ParsedTimesheetEvent` (timesheet_parser.py:46-58).  These are exactly
the fields the source dataclass declares — in particular there is no
`timesheet_date` field. -/
structure ParsedTimesheetEvent where
  action : TimesheetAction
  desired_dnd_status : Option DesiredDndStatus
  timesheet_id : Option Int
  employee_id : Option Int
  event_unix : Option Int
  dedupe_key : Option String
  reason : String
  topic : Option String := none
  debug_break : Option BreakSlot := none
  deriving Repr, DecidableEq

/-- Truthiness of an optional integer (`if end_time:` etc.): `None` and `0`
are both falsy. -/
def optTruthy (o : Option Int) : Bool :=
  match o with
  | some n => n != 0
  | none => false

/-- The event returned on the "No timesheet object found" path
(timesheet_parser.py:211-219). -/
def noTimesheetEvent : ParsedTimesheetEvent :=
  { action := .ignore
    desired_dnd_status := none
    timesheet_id := none
    employee_id := none
    event_unix := none
    dedupe_key := none
    reason := "No timesheet object found in payload" }

/-- Stages 1 and 2 of classification (timesheet_parser.py:242-265): clock
out, then break start / break end, threading the mutable
`(action, desired_dnd_status, reason, debug_break)` state. -/
def classifyStage12 (is_in_progress : Option Bool) (end_time : Option Int)
    (webhook_ts : Option Int) (latest_break_slot : Option BreakSlot) :
    TimesheetAction × Option DesiredDndStatus × String × Option BreakSlot :=
  if is_in_progress == some false && optTruthy end_time then
    (.clock_out, some .do_not_accept_department_calls,
     "IsInProgress=false and EndTime present", none)
  else
    match is_in_progress, latest_break_slot with
    | some true, some b =>
      if is_break_in_progress (some b) then
        (.break_start, some .do_not_accept_department_calls,
         "Most recent break slot is in progress", some b)
      else if optTruthy b.end then
        -- `seconds_since_end = abs(webhook_ts - end) if webhook_ts else None`
        let seconds_since_end : Option Nat :=
          if optTruthy webhook_ts then
            some ((webhook_ts.getD 0) - (b.end.getD 0)).natAbs
          else none
        match seconds_since_end with
        | some s =>
          if s ≤ 180 then
            (.break_end, some .take_all_calls,
             s!"Most recent break ended recently (within {s}s)", some b)
          else (.ignore, none, "No actionable event detected", some b)
        | none => (.ignore, none, "No actionable event detected", some b)
      else (.ignore, none, "No actionable event detected", some b)
    | _, _ => (.ignore, none, "No actionable event detected", none)

/-- Stage 3 of classification (timesheet_parser.py:267-281): clock in, only
when the earlier stages left `action == IGNORE`. -/
def classifyStage3 (action1 : TimesheetAction)
    (desired1 : Option DesiredDndStatus) (reason1 : String)
    (is_in_progress : Option Bool) (start_time : Option Int)
    (created modified : Json) (topic : String) :
    TimesheetAction × Option DesiredDndStatus × String :=
  if action1 == .ignore && is_in_progress == some true && optTruthy start_time then
    let is_insert := pyLower topic == "timesheet.insert"
    let created_equals_modified :=
      created.truthy && modified.truthy && (pyStr created == pyStr modified)
    if is_insert || created_equals_modified then
      (.clock_in, some .take_all_calls,
       if is_insert then "Timesheet.Insert with IsInProgress=true"
       else "Created equals Modified (creation event) with IsInProgress=true")
    else (action1, desired1, reason1)
  else (action1, desired1, reason1)

/-- Event timestamp for dedupe (timesheet_parser.py:283-292). -/
def eventUnixFor (action : TimesheetAction) (start_time end_time : Option Int)
    (latest_break_slot : Option BreakSlot) : Option Int :=
  if action == .clock_in then start_time
  else if action == .clock_out then end_time
  else
    match action, latest_break_slot with
    | .break_start, some b => b.start
    | .break_end, some b => b.end
    | _, _ => none

/-- Dedupe-key generation guard (timesheet_parser.py:294-301): Python
truthiness on the id and the timestamp. -/
def dedupeKeyFor (timesheet_id : Option Int) (action : TimesheetAction)
    (event_unix : Option Int) : Option String :=
  if optTruthy timesheet_id && action != .ignore && optTruthy event_unix then
    some (generate_dedupe_key (timesheet_id.getD 0) action (event_unix.getD 0))
  else none

/-- Classification tail of `parse_timesheet_webhook`
(timesheet_parser.py:234-318), over the already-extracted fields.  Pure and
total: the extraction in `parse_timesheet_webhook` is the only fallible
part of the source function. -/
def classifyEvent (timesheet_id employee_id : Option Int)
    (is_in_progress : Option Bool) (start_time end_time : Option Int)
    (created modified : Json) (webhook_ts : Option Int) (topic : String)
    (latest_break_slot : Option BreakSlot) : ParsedTimesheetEvent :=
  let s1 := classifyStage12 is_in_progress end_time webhook_ts latest_break_slot
  let (action1, desired1, reason1, debug_break) := s1
  let s2 := classifyStage3 action1 desired1 reason1 is_in_progress start_time
    created modified topic
  let (action, desired_dnd_status, reason) := s2
  let event_unix := eventUnixFor action start_time end_time latest_break_slot
  let dedupe_key := dedupeKeyFor timesheet_id action event_unix
  { action := action
    desired_dnd_status := desired_dnd_status
    timesheet_id := timesheet_id
    employee_id := employee_id
    event_unix := event_unix
    dedupe_key := dedupe_key
    reason := reason
    topic := if topic == "" then none else some topic   -- `topic or None`
    debug_break := debug_break }

/-- `parse_timesheet_webhook` (timesheet_parser.py:195-318).  Attribute
access and `in`/indexing on values of the wrong shape propagate as
`PyErr`, exactly where the Python would raise; the infallible
classification tail is `classifyEvent`. -/
def parse_timesheet_webhook (payload : Json) : Except PyErr ParsedTimesheetEvent := do
  let ts_obj? ← get_timesheet_object payload

  -- `if not ts_obj:` — None, or a falsy JSON value returned by a wrapper
  let tsTruthy := match ts_obj? with | none => false | some j => j.truthy
  if tsTruthy = false then
    return noTimesheetEvent
  let ts_obj := ts_obj?.getD .null

  -- each `.get` raises AttributeError when ts_obj is not a dict
  let timesheet_id := to_number (← pyGet ts_obj "Id")
  let employee_id := to_number (← pyGet ts_obj "Employee")
  let is_in_progress := to_bool (← pyGet ts_obj "IsInProgress")
  let start_time := to_number (← pyGet ts_obj "StartTime")
  let end_time := to_number (← pyGet ts_obj "EndTime")

  let created ← pyGet ts_obj "Created"
  let modified ← pyGet ts_obj "Modified"

  -- Webhook metadata
  let webhook_ts := to_number (← pyGet payload "timestamp")
  let topic := pyStrip (pyStr (← pyGetD payload "topic" (.str "")))

  -- Get latest break slot
  let latest_break_slot := get_most_recent_break_slot (← pyGet ts_obj "Slots")

  return classifyEvent timesheet_id employee_id is_in_progress start_time
    end_time created modified webhook_ts topic latest_break_slot

/-! ## Side-effect dispatcher (`main.py`) -/

/-- `str(x)` for an optional integer (Python prints `None` for null ids). -/
def pyStrOfOptInt : Option Int → String
  | none => "None"
  | some n => toString n

/-- The field names the source dataclass `ParsedTimesheetEvent`
(timesheet_parser.py:46-58) declares.  `timesheet_date` is absent. -/
def parsedEventFieldNames : List String :=
  ["action", "desired_dnd_status", "timesheet_id", "employee_id",
   "event_unix", "dedupe_key", "reason", "topic", "debug_break"]

/-- `event.timesheet_date` as read by main.py (lines 167, 171, 173, 376):
the dataclass declares no such field, so the attribute access raises
`AttributeError`. -/
def ParsedTimesheetEvent.timesheet_date_attr (_ : ParsedTimesheetEvent) :
    Except PyErr (Option String) :=
  if parsedEventFieldNames.contains "timesheet_date" then
    .ok none   -- unreachable: the field list does not contain it
  else
    .error (.attributeError "timesheet_date")

/-- `is_today` (main.py:149-154); `today` is `date.today()` formatted
`YYYY-MM-DD`, passed explicitly. -/
def is_today (today : String) (timesheet_date : Option String) : Bool :=
  match timesheet_date with
  | none => false
  | some d => if d == "" then false else d == today   -- `if not timesheet_date`

/-- One entry of `user_mappings.json` as consumed by main.py: `user.get("name",
"Unknown")` and `user.get("ringcentral_extension_id")`. -/
structure UserRecord where
  name : Option String
  ringcentral_extension_id : Option String
  deriving Repr, DecidableEq

/-- External calls `process_timesheet_event` performs, in order. -/
inductive Effect where
  | ringcentralCall (extension_id : String) (dnd_status : DesiredDndStatus)
  | dashboardCall (employee_id name clock_status : String)
  | complete (dedupe_key : String)
  deriving Repr, DecidableEq

/-- Environment of the dispatcher: today's date, and the
`find_by_deputy_id` employee-directory collaborator. -/
structure DispatchEnv where
  today : String
  find_by_deputy_id : String → Option UserRecord

/-- `if event.dedupe_key: await mark_dedupe_completed(event.dedupe_key)`
(main.py:176-177, 188-189, 199-200, 246-247); the empty string is falsy. -/
def completeIfKey (event : ParsedTimesheetEvent) : List Effect :=
  match event.dedupe_key with
  | some k => if k == "" then [] else [.complete k]
  | none => []

/-- `clock_status_map.get(event.action)` (main.py:230-236). -/
def clock_status_map : TimesheetAction → Option String
  | .clock_in => some "clocked_in"
  | .clock_out => some "clocked_out"
  | .break_start => some "on_break"
  | .break_end => some "clocked_in"   -- back to work after break
  | .ignore => none

/-- main.py:170-247, the body of `process_timesheet_event` after the entry
logging line, with the value of `event.timesheet_date` supplied as an
argument.  Returns the list of external calls made.  RingCentral/dashboard
failures are caught inside their helpers and only logged, so they do not
alter control flow. -/
def processTimesheetEventBody (env : DispatchEnv) (event : ParsedTimesheetEvent)
    (timesheet_date : Option String) : List Effect :=
  -- Only process timesheets for today - skip past timecard approvals
  if is_today env.today timesheet_date = false then
    completeIfKey event
  else
    match env.find_by_deputy_id (pyStrOfOptInt event.employee_id) with
    | none => completeIfKey event   -- no user mapping: complete anyway
    | some user =>
      let employee_name := user.name.getD "Unknown"
      -- `if not ringcentral_extension_id:` — None and "" are both falsy
      let extTruthy :=
        match user.ringcentral_extension_id with
        | some e => e != ""
        | none => false
      if extTruthy = false then completeIfKey event
      else
        let ringcentral_extension_id := user.ringcentral_extension_id.getD ""
        let side_effects :=
          match event.desired_dnd_status with
          | some dnd =>
            let rc := [Effect.ringcentralCall ringcentral_extension_id dnd]
            match clock_status_map event.action with
            | some cs =>
              rc ++ [Effect.dashboardCall (pyStrOfOptInt event.employee_id)
                       employee_name cs]
            | none => rc
          | none => []
        side_effects ++ completeIfKey event

/-- `process_timesheet_event` (main.py:157-247).  Its first statement
(main.py:165-168) interpolates `event.timesheet_date` into a log line;
since the dataclass has no such field this raises before any other work.
The pair carries the effects performed and the exception, if any. -/
def process_timesheet_event (env : DispatchEnv) (event : ParsedTimesheetEvent) :
    List Effect × Option PyErr :=
  match event.timesheet_date_attr with
  | .error e => ([], some e)
  | .ok d => (processTimesheetEventBody env event d, none)

/-! ## Webhook HTTP handler (`main.py:273-343`) -/

/-- Responses of `handle_timesheet_webhook` as seen by the HTTP caller.
An exception escaping the handler surfaces as the framework's 500. -/
inductive HttpResponse where
  | badRequest                                     -- 400, {"error": "Invalid JSON payload"}
  | ok (status : String) (dedupe_key : Option String)  -- 200 with JSON body
  | internalError (e : PyErr)                      -- uncaught exception → 500
  deriving Repr, DecidableEq

/-- `handle_timesheet_webhook` (main.py:273-343).  `body` is `none` when
`request.json()` raised (malformed JSON); `lock_acquired` abstracts the
`acquire_dedupe_lock` result.  Only the `try` around `request.json()`
catches exceptions: `parse_timesheet_webhook` runs unguarded. -/
def handle_timesheet_webhook (body : Option Json) (lock_acquired : Bool) :
    HttpResponse :=
  match body with
  | none => .badRequest
  | some payload =>
    match parse_timesheet_webhook payload with
    | .error e => .internalError e
    | .ok event =>
      if event.action == .ignore then
        .ok "ignored" none
      else
        -- `if not event.dedupe_key:` — None and "" are falsy
        let keyTruthy :=
          match event.dedupe_key with
          | some k => k != ""
          | none => false
        if keyTruthy = false then
          .ok "accepted" none
        else if lock_acquired then
          .ok "accepted" event.dedupe_key
        else
          .ok "duplicate" event.dedupe_key

/-! ## Redis dedupe lock (`redis_client.py`) -/

/-- `settings.dedupe_lock_ttl` default (config.py:28). -/
def dedupe_lock_ttl : Nat := 30

/-- `settings.dedupe_completed_ttl` default (config.py:29). -/
def dedupe_completed_ttl : Nat := 3600

/-- The dedupe store: each Redis key maps to a value string and an absolute
expiry instant (seconds).  An entry is live at `now` while `now < expiry`. -/
def RedisState : Type := String → Option (String × Nat)

/-- Value of a key at time `now`, honouring expiry. -/
def redisLive (st : RedisState) (now : Nat) (k : String) : Option String :=
  match st k with
  | some (v, expiry) => if now < expiry then some v else none
  | none => none

/-- `SET k v EX ttl` at time `now`. -/
def redisSetAt (st : RedisState) (k v : String) (expiry : Nat) : RedisState :=
  fun k' => if k' = k then some (v, expiry) else st k'

/-- The Redis key used for a dedupe key (redis_client.py:52, 83). -/
def dedupeRedisKey (dedupe_key : String) : String :=
  "deputy:dedupe:" ++ dedupe_key

/-- `acquire_dedupe_lock` (redis_client.py:37-69): `SET key "processing" NX
EX dedupe_lock_ttl`; returns true iff this call created the entry. -/
def acquire_dedupe_lock (st : RedisState) (now : Nat) (dedupe_key : String) :
    Bool × RedisState :=
  let key := dedupeRedisKey dedupe_key
  match redisLive st now key with
  | some _ => (false, st)
  | none => (true, redisSetAt st key "processing" (now + dedupe_lock_ttl))

/-- `mark_dedupe_completed` (redis_client.py:72-86): unconditional
`SET key "completed" EX dedupe_completed_ttl`. -/
def mark_dedupe_completed (st : RedisState) (now : Nat) (dedupe_key : String) :
    RedisState :=
  redisSetAt st (dedupeRedisKey dedupe_key) "completed" (now + dedupe_completed_ttl)

end DeputyPipeline

namespace DashboardBroadcaster

/-! ## Live status broadcaster
(`services/dashboard-service/src/employee_status.py`) -/

/-- `ClockStatus` (employee_status.py:19-25). -/
inductive ClockStatus where
  | clocked_in
  | clocked_out
  | on_break
  | unknown
  deriving Repr, DecidableEq

/-- `EmployeeStatus` (employee_status.py:28-35). -/
structure EmployeeStatus where
  employee_id : String
  name : String
  clock_status : ClockStatus
  last_updated : String
  ringcentral_extension_id : Option String
  deriving Repr, DecidableEq

/-- WebSocket connection handle. -/
abbrev Conn := Nat

/-- The manager's mutable state (employee_status.py:59-67): the
insertion-ordered `_statuses` dict and the `_connections` dict. -/
structure ManagerState where
  statuses : List (String × EmployeeStatus)
  connections : List (Conn × String)
  deriving Repr, DecidableEq

/-- Python dict upsert: replace in place if the key exists (keeping its
position), else append. -/
def dictInsert (kvs : List (String × EmployeeStatus)) (k : String)
    (v : EmployeeStatus) : List (String × EmployeeStatus) :=
  if kvs.any (fun p => p.1 == k) then
    kvs.map (fun p => if p.1 == k then (k, v) else p)
  else kvs ++ [(k, v)]

/-- First-match dict lookup on the statuses table. -/
def statusLookup (kvs : List (String × EmployeeStatus)) (k : String) :
    Option EmployeeStatus :=
  match kvs.find? (fun p => p.1 == k) with
  | some p => some p.2
  | none => none

/-- `unregister_connection` (employee_status.py:89-94): `dict.pop`. -/
def unregister_connection (st : ManagerState) (ws : Conn) : ManagerState :=
  { st with connections := st.connections.filter (fun p => p.1 ≠ ws) }

/-- `_send_to_client` (employee_status.py:182-188): `sendOk` tells whether
`websocket.send_text` succeeds; on failure the connection unregisters
itself. -/
def send_to_client (sendOk : Conn → Bool) (st : ManagerState) (ws : Conn) :
    ManagerState :=
  if sendOk ws then st else unregister_connection st ws

/-- `_broadcast` (employee_status.py:167-180): snapshot the connection list
under the lock, send to each (failures remove themselves, and
`asyncio.gather(..., return_exceptions=True)` lets every other send
proceed).  Returns the new state and the handles the message was delivered
to. -/
def broadcastMsg (sendOk : Conn → Bool) (st : ManagerState) (_message : String) :
    ManagerState × List Conn :=
  let connections := st.connections.map Prod.fst
  let st' := connections.foldl (send_to_client sendOk) st
  (st', connections.filter sendOk)

/-- `update_status` (employee_status.py:96-124): build a fresh
`EmployeeStatus` from the call's arguments only (the prior record is not
read), store it, then broadcast a `status_update` message.  `now` is
`datetime.now(timezone.utc).isoformat()`. -/
def update_status (sendOk : Conn → Bool) (st : ManagerState)
    (employee_id name : String) (clock_status : ClockStatus)
    (ringcentral_extension_id : Option String) (now : String) :
    ManagerState × List Conn :=
  let record : EmployeeStatus :=
    { employee_id := employee_id
      name := name
      clock_status := clock_status
      last_updated := now
      ringcentral_extension_id := ringcentral_extension_id }
  let st1 := { st with statuses := dictInsert st.statuses employee_id record }
  broadcastMsg sendOk st1 "status_update"

/-- `initialize_employee` (employee_status.py:136-153): insert only when the
employee id is not yet present; no broadcast. -/
def initialize_employee (st : ManagerState) (employee_id name : String)
    (ringcentral_extension_id : Option String) (clock_status : ClockStatus)
    (now : String) : ManagerState :=
  if st.statuses.any (fun p => p.1 == employee_id) then st
  else
    { st with
      statuses := st.statuses ++
        [(employee_id,
          { employee_id := employee_id
            name := name
            clock_status := clock_status
            last_updated := now
            ringcentral_extension_id := ringcentral_extension_id })] }

end DashboardBroadcaster

namespace DeputyPipeline

/-! ## Concrete payloads used by the theorems -/

/-- The §8 scenario payload
`{Id:100, Employee:5, IsInProgress:true, StartTime:1700000000, Created:"t1", Modified:"t1"}`. -/
def payloadClockIn : Json :=
  .obj [("Id", .num 100), ("Employee", .num 5), ("IsInProgress", .bool true),
        ("StartTime", .num 1700000000), ("Created", .str "t1"),
        ("Modified", .str "t1")]

/-- A wrapper payload whose `result` value is not an object:
`{"result": 5}`. -/
def payloadResultNonObject : Json := .obj [("result", .num 5)]

/-- The event `parse_timesheet_webhook` yields for `payloadClockIn`. -/
def clockInEvent : ParsedTimesheetEvent :=
  { action := .clock_in
    desired_dnd_status := some .take_all_calls
    timesheet_id := some 100
    employee_id := some 5
    event_unix := some 1700000000
    dedupe_key := some "tci_c09011f0"
    reason := "Created equals Modified (creation event) with IsInProgress=true"
    topic := none
    debug_break := none }


/-- A `Slots` entry whose break has ended at epoch second 0. -/
def zeroEndSlotJson : Json :=
  .obj [("strType", .str "B"), ("intUnixStart", .num 1),
        ("intUnixEnd", .num 0), ("strState", .str "finished")]

/-- Key-value list of a payload whose most-recent break slot has end time 0
while the webhook delivery timestamp is 100. -/
def zeroEndKvs : List (String × Json) :=
  [("Id", .num 1), ("IsInProgress", .bool true), ("timestamp", .num 100),
   ("Slots", .arr [zeroEndSlotJson])]

def payloadZeroEndBreak : Json := .obj zeroEndKvs

/-- The break slot extracted from `zeroEndKvs`. -/
def zeroEndBreakSlot : BreakSlot :=
  { start := some 1, «end» := some 0, state := "finished",
    type_name := "", break_type := "" }

/-- The event `parse_timesheet_webhook` yields for `payloadZeroEndBreak`. -/
def zeroEndParsedEvent : ParsedTimesheetEvent :=
  { action := .ignore
    desired_dnd_status := none
    timesheet_id := some 1
    employee_id := none
    event_unix := none
    dedupe_key := none
    reason := "No actionable event detected"
    topic := none
    debug_break := some zeroEndBreakSlot }

/-- Key-value list of a payload whose break ended 50 s before delivery. -/
def recentBreakEndKvs : List (String × Json) :=
  [("Id", .num 1), ("IsInProgress", .bool true),
   ("timestamp", .num 1700000100),
   ("Slots", .arr [.obj [("strType", .str "B"),
     ("intUnixStart", .num 1700000000), ("intUnixEnd", .num 1700000050),
     ("strState", .str "finished")]])]

/-- The break slot extracted from `recentBreakEndKvs`. -/
def recentBreakSlot : BreakSlot :=
  { start := some 1700000000, «end» := some 1700000050,
    state := "finished", type_name := "", break_type := "" }

end DeputyPipeline

namespace DashboardBroadcaster

/-! ## Broadcaster lemmas -/

/-- `_send_to_client` never touches the statuses table. -/
theorem send_to_client_statuses (sendOk : Conn → Bool) (st : ManagerState)
    (c : Conn) : (send_to_client sendOk st c).statuses = st.statuses := by
  cases h : sendOk c <;> simp [send_to_client, unregister_connection, h]

/-- Folding sends over any handle list leaves the statuses table intact. -/
theorem foldl_send_statuses (sendOk : Conn → Bool) (cs : List Conn) :
    ∀ st : ManagerState,
      (cs.foldl (send_to_client sendOk) st).statuses = st.statuses := by
  induction cs with
  | nil => intro st; rfl
  | cons c t ih =>
    intro st
    rw [List.foldl_cons, ih, send_to_client_statuses]

/-- Looking up the replaced key after an in-place dict replacement. -/
theorem statusLookup_map_replace (k : String) (v : EmployeeStatus) :
    ∀ kvs : List (String × EmployeeStatus),
      kvs.any (fun p => p.1 == k) = true →
      statusLookup (kvs.map (fun p => if p.1 == k then (k, v) else p)) k =
        some v := by
  intro kvs h
  induction kvs with
  | nil => simp at h
  | cons p t ih =>
    by_cases hp : p.1 = k
    · simp [statusLookup, List.find?, hp]
    · have hk : (p.1 == k) = false := by simpa using hp
      simp only [List.any_cons, hk, Bool.false_or] at h
      simpa [statusLookup, List.find?, hk] using ih h

/-- Looking up an appended fresh key. -/
theorem statusLookup_append_self (k : String) (v : EmployeeStatus) :
    ∀ kvs : List (String × EmployeeStatus),
      kvs.any (fun p => p.1 == k) = false →
      statusLookup (kvs ++ [(k, v)]) k = some v := by
  intro kvs h
  induction kvs with
  | nil => simp [statusLookup]
  | cons p t ih =>
    simp only [List.any_cons, Bool.or_eq_false_iff] at h
    simp only [List.cons_append, statusLookup, List.find?, h.1]
    simpa [statusLookup] using ih h.2

/-- Upserting then looking up the same key yields the fresh record. -/
theorem statusLookup_dictInsert (kvs : List (String × EmployeeStatus))
    (k : String) (v : EmployeeStatus) :
    statusLookup (dictInsert kvs k v) k = some v := by
  unfold dictInsert
  by_cases h : kvs.any (fun p => p.1 == k)
  · rw [if_pos h]; exact statusLookup_map_replace k v kvs h
  · rw [if_neg h]
    refine statusLookup_append_self k v kvs ?_
    cases hb : kvs.any (fun p => p.1 == k)
    · rfl
    · exact absurd hb h

/-- C10: `update_status` replaces the employee's entire stored record: the
stored record after the call is built from the call's arguments alone,
whatever was stored before — in particular a call passing
`ringcentral_extension_id = none` clears any earlier extension id, and
`last_updated` is the call-time timestamp. -/
theorem c10_update_status_replaces_entire_record (sendOk : Conn → Bool)
    (st : ManagerState) (employee_id name : String)
    (clock_status : ClockStatus) (ringcentral_extension_id : Option String)
    (now : String) :
    statusLookup
        ((update_status sendOk st employee_id name clock_status
            ringcentral_extension_id now).1).statuses employee_id =
      some { employee_id := employee_id, name := name
             clock_status := clock_status, last_updated := now
             ringcentral_extension_id := ringcentral_extension_id } := by
  unfold update_status broadcastMsg
  rw [foldl_send_statuses]
  exact statusLookup_dictInsert _ _ _

/-- Connection table after folding the sends of one broadcast: a
connection survives iff its send succeeds or it was not in the snapshot. -/
theorem foldl_send_connections (sendOk : Conn → Bool) (cs : List Conn) :
    ∀ st : ManagerState,
      (cs.foldl (send_to_client sendOk) st).connections =
        st.connections.filter
          (fun p => sendOk p.1 || !(cs.contains p.1)) := by
  induction cs with
  | nil => intro st; simp
  | cons c t ih =>
    intro st
    rw [List.foldl_cons, ih]
    by_cases h : sendOk c
    · have hstep : send_to_client sendOk st c = st := by
        simp [send_to_client, h]
      rw [hstep]
      apply List.filter_congr
      intro p hp
      by_cases hs : sendOk p.1
      · simp [hs]
      · have hpc : p.1 ≠ c := by
          intro hc
          rw [hc] at hs
          exact hs h
        simp [hs, List.contains_cons, hpc]
    · have hstep : send_to_client sendOk st c =
          { st with connections := st.connections.filter (fun p => p.1 ≠ c) } := by
        simp [send_to_client, unregister_connection, h]
      rw [hstep]
      simp only [List.filter_filter]
      apply List.filter_congr
      intro p hp
      by_cases hc : p.1 = c
      · subst hc
        simp [h, List.contains_cons]
      · by_cases hs : sendOk p.1 <;> simp [hs, hc, List.contains_cons]

/-- C9: a registered connection whose send fails during a broadcast is
removed from the registry, every other registered connection whose send
succeeds still receives the message, and a subsequent broadcast does not
deliver (or attempt to deliver) to the removed connection. -/
theorem c9_failed_send_unregisters (sendOk : Conn → Bool) (st : ManagerState)
    (msg : String) (ws : Conn) (cid : String)
    (hmem : (ws, cid) ∈ st.connections) (hfail : sendOk ws = false) :
    (∀ cid', (ws, cid') ∉ ((broadcastMsg sendOk st msg).1).connections) ∧
      (∀ c id, (c, id) ∈ st.connections → sendOk c = true →
        c ∈ (broadcastMsg sendOk st msg).2) ∧
      ws ∉ (broadcastMsg sendOk ((broadcastMsg sendOk st msg).1) msg).2 := by
  have hconn :
      ((broadcastMsg sendOk st msg).1).connections =
        st.connections.filter
          (fun p => sendOk p.1 ||
            !((st.connections.map Prod.fst).contains p.1)) := by
    unfold broadcastMsg
    exact foldl_send_connections sendOk (st.connections.map Prod.fst) st
  have hws_in_snapshot : (st.connections.map Prod.fst).contains ws = true :=
    List.elem_eq_true_of_mem (List.mem_map.mpr ⟨(ws, cid), hmem, rfl⟩)
  have hnot : ∀ cid', (ws, cid') ∉ ((broadcastMsg sendOk st msg).1).connections := by
    intro cid' hin
    rw [hconn] at hin
    have hpred := List.of_mem_filter hin
    simp only [hfail, hws_in_snapshot, Bool.false_or, Bool.not_true] at hpred
    exact Bool.false_ne_true hpred
  refine ⟨hnot, ?_, ?_⟩
  · intro c id hc hok
    show c ∈ (st.connections.map Prod.fst).filter sendOk
    apply List.mem_filter_of_mem _ hok
    exact List.mem_map.mpr ⟨(c, id), hc, rfl⟩
  · intro hin
    have hsnap : ws ∈ ((broadcastMsg sendOk st msg).1).connections.map Prod.fst := by
      have hsub : (broadcastMsg sendOk ((broadcastMsg sendOk st msg).1) msg).2 =
          (((broadcastMsg sendOk st msg).1).connections.map Prod.fst).filter
            sendOk := rfl
      rw [hsub] at hin
      exact List.mem_of_mem_filter hin
    rcases List.mem_map.mp hsnap with ⟨⟨w, cid'⟩, hw, hfst⟩
    cases hfst
    exact hnot cid' hw

/-- Witness for C9: two registered connections, the send to handle 2
fails; the theorem applies and handle 1 still gets the message. -/
theorem c9_failed_send_unregisters_witness :
    ((2 : Conn), "b") ∈ (ManagerState.mk [] [(1, "a"), (2, "b")]).connections ∧
      (fun c : Conn => c == 1) 2 = false ∧
      ((∀ cid', ((2 : Conn), cid') ∉
          ((broadcastMsg (fun c : Conn => c == 1)
              (ManagerState.mk [] [(1, "a"), (2, "b")]) "m").1).connections) ∧
        (∀ c id, (c, id) ∈ (ManagerState.mk [] [(1, "a"), (2, "b")]).connections →
          (fun c : Conn => c == 1) c = true →
          c ∈ (broadcastMsg (fun c : Conn => c == 1)
              (ManagerState.mk [] [(1, "a"), (2, "b")]) "m").2) ∧
        (2 : Conn) ∉ (broadcastMsg (fun c : Conn => c == 1)
            ((broadcastMsg (fun c : Conn => c == 1)
                (ManagerState.mk [] [(1, "a"), (2, "b")]) "m").1) "m").2) :=
  ⟨by decide, by decide,
   c9_failed_send_unregisters (fun c : Conn => c == 1)
     (ManagerState.mk [] [(1, "a"), (2, "b")]) "m" 2 "b" (by decide) (by decide)⟩

end DashboardBroadcaster

namespace DeputyPipeline

/-- C6: the §8 clock-in scenario payload parses to `action=ClockIn`,
`desired_presence=Available` (TakeAllCalls), `event_unix=1700000000`, and a
dedupe key starting with `"tci_"`. -/
theorem c6_clock_in_scenario :
    ∃ ev, parse_timesheet_webhook payloadClockIn = Except.ok ev ∧
      ev.action = TimesheetAction.clock_in ∧
      ev.desired_dnd_status = some DesiredDndStatus.take_all_calls ∧
      ev.event_unix = some 1700000000 ∧
      ∃ k, ev.dedupe_key = some k ∧ strStartsWith k "tci_" = true := by
  refine ⟨clockInEvent, ?_, rfl, rfl, rfl, "tci_c09011f0", rfl, ?_⟩
  · rfl
  · decide

/-- C3 (code bug): the claim says `parse_timesheet_webhook` never raises,
for any payload shape including wrappers whose `data`/`result`/`record`
values are not objects.  On `{"result": 5}` the wrapper value `5` is
returned unchecked by `_get_timesheet_object` and the subsequent
`ts_obj.get("Id")` raises `AttributeError`: `int` has no `get`. -/
theorem c3_parse_raises_on_non_object_wrapper :
    parse_timesheet_webhook payloadResultNonObject =
      Except.error (PyErr.attributeError "get") := by
  rfl

/-- C5 (code bug): the claim says every well-formed JSON body gets an HTTP
200 whose `status` is ignored/accepted/duplicate.  The body
`{"result": 5}` is well-formed JSON, yet `parse_timesheet_webhook` raises
inside the handler (outside its only `try`), so the framework answers 500,
not 200. -/
theorem c5_handler_500_on_non_object_wrapper (lock_acquired : Bool) :
    handle_timesheet_webhook (some payloadResultNonObject) lock_acquired =
      HttpResponse.internalError (PyErr.attributeError "get") := by
  rfl

/-- C1 (code bug): the claim says `process_timesheet_event` calls
`complete` exactly once on every exit path.  The function's first statement
(main.py:165-168) reads `event.timesheet_date`, a field the
`ParsedTimesheetEvent` dataclass does not declare, so every call raises
`AttributeError` before doing any work: `complete` is called zero times
for every event. -/
theorem c1_process_never_calls_complete (env : DispatchEnv)
    (event : ParsedTimesheetEvent) :
    (process_timesheet_event env event).2 =
        some (PyErr.attributeError "timesheet_date") ∧
      ∀ k, Effect.complete k ∉ (process_timesheet_event env event).1 := by
  constructor
  · rfl
  · intro k h
    simp [process_timesheet_event, ParsedTimesheetEvent.timesheet_date_attr,
      parsedEventFieldNames] at h

/-- C8: for any prior store contents, `complete(k)` at time `t0` followed
by a fresh `admit(k)` at any time `t1` inside the completed-TTL window
returns false.  The prior state is universally quantified, so the case
where an original `processing` entry's 30 s TTL has long expired is
included; the second conjunct is the unconditional (re)set to
`completed` with the 3600 s TTL. -/
theorem c8_complete_blocks_fresh_admit (st : RedisState) (t0 t1 : Nat)
    (k : String) (hwin : t1 < t0 + dedupe_completed_ttl) :
    (acquire_dedupe_lock (mark_dedupe_completed st t0 k) t1 k).1 = false ∧
      mark_dedupe_completed st t0 k (dedupeRedisKey k) =
        some ("completed", t0 + dedupe_completed_ttl) := by
  constructor
  · simp [acquire_dedupe_lock, mark_dedupe_completed, redisSetAt, redisLive, hwin]
  · simp [mark_dedupe_completed, redisSetAt]

/-- Witness for C8 at a concrete instant: complete at `t0 = 0`, fresh admit
at `t1 = 1000` — far past the 30 s processing TTL, still inside the 3600 s
completed window — is refused. -/
theorem c8_complete_blocks_fresh_admit_witness :
    (1000 : Nat) < 0 + dedupe_completed_ttl ∧
      ((acquire_dedupe_lock (mark_dedupe_completed (fun _ => none) 0 "tci_c09011f0")
          1000 "tci_c09011f0").1 = false ∧
        mark_dedupe_completed (fun _ => none) 0 "tci_c09011f0"
            (dedupeRedisKey "tci_c09011f0") =
          some ("completed", 0 + dedupe_completed_ttl)) :=
  ⟨by decide,
   c8_complete_blocks_fresh_admit (fun _ => none) 0 1000 "tci_c09011f0" (by decide)⟩

/-- C2 (code bug): the claim says every parsed event carries a
`timesheet_date` field and that the dispatcher still completes not-today
events.  The parser's dataclass has no `timesheet_date` field at all: for
the concrete clock-in event it produces, reading the attribute raises
`AttributeError`, and `process_timesheet_event` therefore performs no
side effect and no `complete`, whatever today's date is. -/
theorem c2_event_has_no_timesheet_date :
    ∃ ev, parse_timesheet_webhook payloadClockIn = Except.ok ev ∧
      ev.timesheet_date_attr = Except.error (PyErr.attributeError "timesheet_date") ∧
      ∀ env : DispatchEnv, process_timesheet_event env ev =
        ([], some (PyErr.attributeError "timesheet_date")) := by
  exact ⟨clockInEvent, rfl, rfl, fun _ => rfl⟩

/-- A string with a non-empty left part is non-empty. -/
theorem append_ne_empty_left (a b : String) (h : a ≠ "") : a ++ b ≠ "" := by
  intro hab
  apply h
  have hd : a.data ++ b.data = ([] : List Char) := congrArg String.data hab
  have ha : a.data = [] := (List.append_eq_nil.mp hd).1
  cases a
  simp_all

/-- Every successful parse yields either the "no timesheet object" event or
a classification of extracted fields. -/
theorem parse_shape (payload : Json) (ev : ParsedTimesheetEvent)
    (h : parse_timesheet_webhook payload = Except.ok ev) :
    ev = noTimesheetEvent ∨
      ∃ ti ei ip st et cr mo wt tp lb,
        ev = classifyEvent ti ei ip st et cr mo wt tp lb := by
  unfold parse_timesheet_webhook at h
  cases hts : get_timesheet_object payload with
  | error e => rw [hts] at h; simp [Bind.bind, Except.bind] at h
  | ok o =>
    rw [hts] at h
    simp only [Bind.bind, Except.bind] at h
    cases o with
    | none =>
      simp only [pure, Except.pure] at h
      exact Or.inl (Except.ok.inj h).symm
    | some j =>
      by_cases hj : j.truthy
      · simp only [hj, Option.getD] at h
        cases j with
        | obj kvs =>
          cases payload with
          | obj pkvs =>
            simp only [pyGet, pyGetD, Bind.bind, Except.bind, pure,
              Except.pure] at h
            refine Or.inr ⟨_, _, _, _, _, _, _, _, _, _, (Except.ok.inj h).symm⟩
          | null => simp [pyGet, pyGetD, Bind.bind, Except.bind, pure, Except.pure] at h
          | bool b => simp [pyGet, pyGetD, Bind.bind, Except.bind, pure, Except.pure] at h
          | num n => simp [pyGet, pyGetD, Bind.bind, Except.bind, pure, Except.pure] at h
          | str s => simp [pyGet, pyGetD, Bind.bind, Except.bind, pure, Except.pure] at h
          | arr xs => simp [pyGet, pyGetD, Bind.bind, Except.bind, pure, Except.pure] at h
        | null => simp [pyGet, pyGetD, Bind.bind, Except.bind, pure, Except.pure] at h
        | bool b => simp [pyGet, pyGetD, Bind.bind, Except.bind, pure, Except.pure] at h
        | num n => simp [pyGet, pyGetD, Bind.bind, Except.bind, pure, Except.pure] at h
        | str s => simp [pyGet, pyGetD, Bind.bind, Except.bind, pure, Except.pure] at h
        | arr xs => simp [pyGet, pyGetD, Bind.bind, Except.bind, pure, Except.pure] at h
      · have hj' : j.truthy = false := by
          cases hb : j.truthy
          · rfl
          · exact absurd hb hj
        simp only [hj', Option.getD, pure, Except.pure] at h
        exact Or.inl (Except.ok.inj h).symm

/-- Stages 1-2 keep `desired_dnd_status = none` whenever they leave the
action at `IGNORE`, and always produce a non-empty reason. -/
theorem classifyStage12_inv (ip : Option Bool) (et wt : Option Int)
    (lb : Option BreakSlot) :
    ((classifyStage12 ip et wt lb).1 = .ignore →
        (classifyStage12 ip et wt lb).2.1 = none) ∧
      (classifyStage12 ip et wt lb).2.2.1 ≠ "" := by
  unfold classifyStage12
  split
  · dsimp only; exact ⟨fun hh => absurd hh (by decide), by decide⟩
  · split
    · split
      · dsimp only; exact ⟨fun hh => absurd hh (by decide), by decide⟩
      · split
        · split
          · dsimp only
            split
            · dsimp only
              refine ⟨fun hh => absurd hh (by decide), ?_⟩
              apply append_ne_empty_left
              apply append_ne_empty_left
              decide
            · dsimp only; exact ⟨fun _ => rfl, by decide⟩
          · dsimp only; exact ⟨fun _ => rfl, by decide⟩
        · dsimp only; exact ⟨fun _ => rfl, by decide⟩
    · dsimp only; exact ⟨fun _ => rfl, by decide⟩

/-- Stage 3 preserves the stage-1/2 invariant. -/
theorem classifyStage3_inv (a1 : TimesheetAction) (d1 : Option DesiredDndStatus)
    (r1 : String) (ip : Option Bool) (st : Option Int) (cr mo : Json)
    (tp : String) (hd : a1 = .ignore → d1 = none) (hr : r1 ≠ "") :
    ((classifyStage3 a1 d1 r1 ip st cr mo tp).1 = .ignore →
        (classifyStage3 a1 d1 r1 ip st cr mo tp).2.1 = none) ∧
      (classifyStage3 a1 d1 r1 ip st cr mo tp).2.2 ≠ "" := by
  unfold classifyStage3
  split
  · dsimp only
    split
    · dsimp only
      refine ⟨fun hh => absurd hh (by decide), ?_⟩
      split <;> decide
    · exact ⟨hd, hr⟩
  · exact ⟨hd, hr⟩

/-- The classification tail satisfies the claimed event invariant. -/
theorem classifyEvent_inv (ti ei : Option Int) (ip : Option Bool)
    (st et : Option Int) (cr mo : Json) (wt : Option Int) (tp : String)
    (lb : Option BreakSlot) :
    ((classifyEvent ti ei ip st et cr mo wt tp lb).action = .ignore →
        (classifyEvent ti ei ip st et cr mo wt tp lb).desired_dnd_status = none ∧
          (classifyEvent ti ei ip st et cr mo wt tp lb).dedupe_key = none) ∧
      ((classifyEvent ti ei ip st et cr mo wt tp lb).action ≠ .ignore →
        (classifyEvent ti ei ip st et cr mo wt tp lb).reason ≠ "") := by
  obtain ⟨h12d, h12r⟩ := classifyStage12_inv ip et wt lb
  obtain ⟨h3d, h3r⟩ := classifyStage3_inv
    (classifyStage12 ip et wt lb).1 (classifyStage12 ip et wt lb).2.1
    (classifyStage12 ip et wt lb).2.2.1 ip st cr mo tp h12d h12r
  constructor
  · intro hh
    refine ⟨h3d hh, ?_⟩
    simp only [classifyEvent, dedupeKeyFor] at hh ⊢
    simp [hh]
  · intro hh
    exact h3r

/-- C4: for every payload on which the parser returns, the returned event
satisfies: `action = Ignore` implies `desired_dnd_status = none` and
`dedupe_key = none`; and a non-Ignore action has a non-empty `reason`. -/
theorem c4_event_invariants (payload : Json) (ev : ParsedTimesheetEvent)
    (h : parse_timesheet_webhook payload = Except.ok ev) :
    (ev.action = TimesheetAction.ignore →
        ev.desired_dnd_status = none ∧ ev.dedupe_key = none) ∧
      (ev.action ≠ TimesheetAction.ignore → ev.reason ≠ "") := by
  rcases parse_shape payload ev h with hev | ⟨ti, ei, ip, st, et, cr, mo, wt, tp, lb, hev⟩
  · subst hev
    exact ⟨fun _ => ⟨rfl, rfl⟩, fun hh => absurd rfl hh⟩
  · subst hev
    exact classifyEvent_inv ti ei ip st et cr mo wt tp lb

/-- Witness for C4 at the concrete payload `null`, which parses to the
"no timesheet object" Ignore event. -/
theorem c4_event_invariants_witness :
    (noTimesheetEvent.action = TimesheetAction.ignore →
        noTimesheetEvent.desired_dnd_status = none ∧
          noTimesheetEvent.dedupe_key = none) ∧
      (noTimesheetEvent.action ≠ TimesheetAction.ignore →
        noTimesheetEvent.reason ≠ "") :=
  c4_event_invariants Json.null noTimesheetEvent rfl

/-- On an object payload whose timesheet object is a truthy dict, the parser
returns the classification of the extracted fields. -/
theorem parse_eq_classify (pkvs kvs : List (String × Json))
    (hts : get_timesheet_object (Json.obj pkvs) = Except.ok (some (Json.obj kvs)))
    (htr : (Json.obj kvs).truthy = true) :
    parse_timesheet_webhook (Json.obj pkvs) = Except.ok (classifyEvent
      (to_number ((alookup kvs "Id").getD .null))
      (to_number ((alookup kvs "Employee").getD .null))
      (to_bool ((alookup kvs "IsInProgress").getD .null))
      (to_number ((alookup kvs "StartTime").getD .null))
      (to_number ((alookup kvs "EndTime").getD .null))
      ((alookup kvs "Created").getD .null)
      ((alookup kvs "Modified").getD .null)
      (to_number ((alookup pkvs "timestamp").getD .null))
      (pyStrip (pyStr ((alookup pkvs "topic").getD (.str ""))))
      (get_most_recent_break_slot ((alookup kvs "Slots").getD .null))) := by
  unfold parse_timesheet_webhook
  rw [hts]
  simp [Bind.bind, Except.bind, pure, Except.pure, htr, pyGet, pyGetD]

/-- Stage 3 either keeps the incoming action or replaces it by ClockIn. -/
theorem classifyStage3_action_cases (a1 : TimesheetAction)
    (d1 : Option DesiredDndStatus) (r1 : String) (ip : Option Bool)
    (st : Option Int) (cr mo : Json) (tp : String) :
    (classifyStage3 a1 d1 r1 ip st cr mo tp).1 = a1 ∨
      (classifyStage3 a1 d1 r1 ip st cr mo tp).1 = .clock_in := by
  unfold classifyStage3
  split
  · dsimp only
    split
    · exact Or.inr rfl
    · exact Or.inl rfl
  · exact Or.inl rfl

/-- Stage 3 is the identity on a non-Ignore action. -/
theorem classifyStage3_of_ne (a1 : TimesheetAction)
    (d1 : Option DesiredDndStatus) (r1 : String) (ip : Option Bool)
    (st : Option Int) (cr mo : Json) (tp : String)
    (h : a1 ≠ .ignore) :
    classifyStage3 a1 d1 r1 ip st cr mo tp = (a1, d1, r1) := by
  have hb : (a1 == TimesheetAction.ignore) = false := by
    cases a1 <;> simp_all
  unfold classifyStage3
  simp [hb]

/-- Only the recent-break branch yields BreakEnd in stages 1-2, and it sets
the desired status to TakeAllCalls. -/
theorem classifyStage12_break_end_desired (ip : Option Bool) (et wt : Option Int)
    (lb : Option BreakSlot) :
    (classifyStage12 ip et wt lb).1 = .break_end →
      (classifyStage12 ip et wt lb).2.1 = some .take_all_calls := by
  unfold classifyStage12
  split
  · dsimp only; exact fun hh => absurd hh (by decide)
  · split
    · split
      · dsimp only; exact fun hh => absurd hh (by decide)
      · split
        · split
          · dsimp only
            split
            · dsimp only; exact fun _ => rfl
            · dsimp only; exact fun hh => absurd hh (by decide)
          · dsimp only; exact fun hh => absurd hh (by decide)
        · dsimp only; exact fun hh => absurd hh (by decide)
    · dsimp only; exact fun hh => absurd hh (by decide)

/-- C7 counterexample: a payload satisfying every premise of the claim —
`IsInProgress` coerces to true, the most-recent break slot carries an end
time (epoch 0) and is not in progress, the delivery timestamp (100) is
present and within 180 s of that end — for which the parser nevertheless
does not classify BreakEnd: Python truthiness treats the 0 end time as
absent, so the break branch yields no action. -/
theorem c7_counterexample :
    to_bool ((alookup zeroEndKvs "IsInProgress").getD .null) = some true ∧
      get_most_recent_break_slot ((alookup zeroEndKvs "Slots").getD .null) =
        some zeroEndBreakSlot ∧
      zeroEndBreakSlot.end = some 0 ∧
      is_break_in_progress (some zeroEndBreakSlot) = false ∧
      to_number ((alookup zeroEndKvs "timestamp").getD .null) = some 100 ∧
      ((100 : Int) - 0).natAbs ≤ 180 ∧
      ∃ ev, parse_timesheet_webhook payloadZeroEndBreak = Except.ok ev ∧
        ev.action = TimesheetAction.ignore ∧
        ev.action ≠ TimesheetAction.break_end := by
  refine ⟨rfl, rfl, rfl, rfl, rfl, by decide, zeroEndParsedEvent, ?_, rfl, by decide⟩
  rfl

/-- C7 (amended): for every object payload whose timesheet object is a
truthy dict with `IsInProgress` coercing to true and whose most-recent
break slot is not in progress and carries an end time `e`, the parser
classifies BreakEnd iff `e` is non-zero, the delivery timestamp is present
and non-zero (Python truthiness), and the two are within 180 seconds. -/
theorem c7_break_end_truthiness (pkvs kvs : List (String × Json))
    (b : BreakSlot) (e : Int)
    (hts : get_timesheet_object (Json.obj pkvs) = Except.ok (some (Json.obj kvs)))
    (htr : (Json.obj kvs).truthy = true)
    (hprog : to_bool ((alookup kvs "IsInProgress").getD .null) = some true)
    (hb : get_most_recent_break_slot ((alookup kvs "Slots").getD .null) = some b)
    (hnip : is_break_in_progress (some b) = false)
    (hend : b.end = some e) :
    ∃ ev, parse_timesheet_webhook (Json.obj pkvs) = Except.ok ev ∧
      (ev.action = TimesheetAction.break_end ↔
        e ≠ 0 ∧ ∃ w, to_number ((alookup pkvs "timestamp").getD .null) = some w ∧
          w ≠ 0 ∧ (w - e).natAbs ≤ 180) ∧
      (ev.action = TimesheetAction.break_end →
        ev.desired_dnd_status = some DesiredDndStatus.take_all_calls ∧
          ev.event_unix = b.end) := by
  refine ⟨_, parse_eq_classify pkvs kvs hts htr, ?_, ?_⟩
  rw [hprog, hb]
  have hbeq : ((some true : Option Bool) == some false) = false := rfl
  have hno : ∀ wt0 : Option Int,
      classifyStage12 (some true)
          (to_number ((alookup kvs "EndTime").getD .null)) wt0 (some b) =
        (.ignore, none, "No actionable event detected", some b) →
      ¬((classifyEvent (to_number ((alookup kvs "Id").getD .null))
          (to_number ((alookup kvs "Employee").getD .null)) (some true)
          (to_number ((alookup kvs "StartTime").getD .null))
          (to_number ((alookup kvs "EndTime").getD .null))
          ((alookup kvs "Created").getD .null) ((alookup kvs "Modified").getD .null)
          wt0 (pyStrip (pyStr ((alookup pkvs "topic").getD (.str ""))))
          (some b)).action = TimesheetAction.break_end) := by
    intro wt0 h12 hh
    have hact : (classifyEvent (to_number ((alookup kvs "Id").getD .null))
        (to_number ((alookup kvs "Employee").getD .null)) (some true)
        (to_number ((alookup kvs "StartTime").getD .null))
        (to_number ((alookup kvs "EndTime").getD .null))
        ((alookup kvs "Created").getD .null) ((alookup kvs "Modified").getD .null)
        wt0 (pyStrip (pyStr ((alookup pkvs "topic").getD (.str ""))))
        (some b)).action =
        (classifyStage3 TimesheetAction.ignore none "No actionable event detected"
          (some true) (to_number ((alookup kvs "StartTime").getD .null))
          ((alookup kvs "Created").getD .null) ((alookup kvs "Modified").getD .null)
          (pyStrip (pyStr ((alookup pkvs "topic").getD (.str ""))))).1 := by
      simp only [classifyEvent, h12]
    rw [hact] at hh
    rcases classifyStage3_action_cases TimesheetAction.ignore none
      "No actionable event detected" (some true)
      (to_number ((alookup kvs "StartTime").getD .null))
      ((alookup kvs "Created").getD .null) ((alookup kvs "Modified").getD .null)
      (pyStrip (pyStr ((alookup pkvs "topic").getD (.str "")))) with hc | hc
    · exact absurd (hc.symm.trans hh) (by decide)
    · exact absurd (hc.symm.trans hh) (by decide)
  by_cases he : e = 0
  · have h12 : classifyStage12 (some true)
        (to_number ((alookup kvs "EndTime").getD .null))
        (to_number ((alookup pkvs "timestamp").getD .null)) (some b) =
        (.ignore, none, "No actionable event detected", some b) := by
      unfold classifyStage12
      simp [hbeq, hnip, hend, he, optTruthy]
    constructor
    · intro hh
      exact absurd hh (hno _ h12)
    · rintro ⟨hne, _⟩
      exact absurd he hne
  · cases hwt : to_number ((alookup pkvs "timestamp").getD .null) with
    | none =>
      have h12 : classifyStage12 (some true)
          (to_number ((alookup kvs "EndTime").getD .null)) none (some b) =
          (.ignore, none, "No actionable event detected", some b) := by
        unfold classifyStage12
        simp [hbeq, hnip, optTruthy]
      constructor
      · intro hh
        exact absurd hh (hno _ h12)
      · rintro ⟨_, w, hww, _, _⟩
        exact absurd hww (by simp)
    | some w =>
      by_cases hw : w = 0
      · subst hw
        have h12 : classifyStage12 (some true)
            (to_number ((alookup kvs "EndTime").getD .null)) (some 0) (some b) =
            (.ignore, none, "No actionable event detected", some b) := by
          unfold classifyStage12
          simp [hbeq, hnip, optTruthy]
        constructor
        · intro hh
          exact absurd hh (hno _ h12)
        · rintro ⟨_, w', hww, hw0, _⟩
          rw [Option.some_inj] at hww
          exact absurd hww.symm hw0
      · by_cases hs : (w - e).natAbs ≤ 180
        · have h12 : classifyStage12 (some true)
              (to_number ((alookup kvs "EndTime").getD .null)) (some w) (some b) =
              (.break_end, some .take_all_calls,
               s!"Most recent break ended recently (within {(w - e).natAbs}s)",
               some b) := by
            unfold classifyStage12
            simp [hbeq, hnip, hend, he, hw, hs, optTruthy]
          have h3 := classifyStage3_of_ne TimesheetAction.break_end
            (some .take_all_calls)
            (s!"Most recent break ended recently (within {(w - e).natAbs}s)")
            (some true) (to_number ((alookup kvs "StartTime").getD .null))
            ((alookup kvs "Created").getD .null)
            ((alookup kvs "Modified").getD .null)
            (pyStrip (pyStr ((alookup pkvs "topic").getD (.str ""))))
            (by decide)
          constructor
          · intro _
            exact ⟨he, w, rfl, hw, hs⟩
          · intro _
            simp only [classifyEvent, h12, h3]
        · have h12 : classifyStage12 (some true)
              (to_number ((alookup kvs "EndTime").getD .null)) (some w) (some b) =
              (.ignore, none, "No actionable event detected", some b) := by
            unfold classifyStage12
            simp [hbeq, hnip, hend, he, hw, hs, optTruthy]
          constructor
          · intro hh
            exact absurd hh (hno _ h12)
          · rintro ⟨_, w', hww, _, hs'⟩
            rw [Option.some_inj] at hww
            rw [← hww] at hs'
            exact absurd hs' hs
  rw [hprog, hb]
  intro hh
  have ha1 : (classifyStage12 (some true)
      (to_number ((alookup kvs "EndTime").getD .null))
      (to_number ((alookup pkvs "timestamp").getD .null)) (some b)).1 =
      TimesheetAction.break_end := by
    rcases classifyStage3_action_cases
      (classifyStage12 (some true)
        (to_number ((alookup kvs "EndTime").getD .null))
        (to_number ((alookup pkvs "timestamp").getD .null)) (some b)).1
      (classifyStage12 (some true)
        (to_number ((alookup kvs "EndTime").getD .null))
        (to_number ((alookup pkvs "timestamp").getD .null)) (some b)).2.1
      (classifyStage12 (some true)
        (to_number ((alookup kvs "EndTime").getD .null))
        (to_number ((alookup pkvs "timestamp").getD .null)) (some b)).2.2.1
      (some true) (to_number ((alookup kvs "StartTime").getD .null))
      ((alookup kvs "Created").getD .null) ((alookup kvs "Modified").getD .null)
      (pyStrip (pyStr ((alookup pkvs "topic").getD (.str "")))) with hc | hc
    · exact hc.symm.trans hh
    · exact absurd (hc.symm.trans hh) (by decide)
  have hne : (classifyStage12 (some true)
      (to_number ((alookup kvs "EndTime").getD .null))
      (to_number ((alookup pkvs "timestamp").getD .null)) (some b)).1 ≠
      TimesheetAction.ignore := by
    rw [ha1]; decide
  have h3 := classifyStage3_of_ne
    (classifyStage12 (some true)
      (to_number ((alookup kvs "EndTime").getD .null))
      (to_number ((alookup pkvs "timestamp").getD .null)) (some b)).1
    (classifyStage12 (some true)
      (to_number ((alookup kvs "EndTime").getD .null))
      (to_number ((alookup pkvs "timestamp").getD .null)) (some b)).2.1
    (classifyStage12 (some true)
      (to_number ((alookup kvs "EndTime").getD .null))
      (to_number ((alookup pkvs "timestamp").getD .null)) (some b)).2.2.1
    (some true) (to_number ((alookup kvs "StartTime").getD .null))
    ((alookup kvs "Created").getD .null) ((alookup kvs "Modified").getD .null)
    (pyStrip (pyStr ((alookup pkvs "topic").getD (.str "")))) hne
  constructor
  · show (classifyStage3
        (classifyStage12 (some true)
          (to_number ((alookup kvs "EndTime").getD .null))
          (to_number ((alookup pkvs "timestamp").getD .null)) (some b)).1
        (classifyStage12 (some true)
          (to_number ((alookup kvs "EndTime").getD .null))
          (to_number ((alookup pkvs "timestamp").getD .null)) (some b)).2.1
        (classifyStage12 (some true)
          (to_number ((alookup kvs "EndTime").getD .null))
          (to_number ((alookup pkvs "timestamp").getD .null)) (some b)).2.2.1
        (some true) (to_number ((alookup kvs "StartTime").getD .null))
        ((alookup kvs "Created").getD .null) ((alookup kvs "Modified").getD .null)
        (pyStrip (pyStr ((alookup pkvs "topic").getD (.str ""))))).2.1 =
      some DesiredDndStatus.take_all_calls
    rw [h3]
    exact classifyStage12_break_end_desired (some true)
      (to_number ((alookup kvs "EndTime").getD .null))
      (to_number ((alookup pkvs "timestamp").getD .null)) (some b) ha1
  · show eventUnixFor
        (classifyStage3
          (classifyStage12 (some true)
            (to_number ((alookup kvs "EndTime").getD .null))
            (to_number ((alookup pkvs "timestamp").getD .null)) (some b)).1
          (classifyStage12 (some true)
            (to_number ((alookup kvs "EndTime").getD .null))
            (to_number ((alookup pkvs "timestamp").getD .null)) (some b)).2.1
          (classifyStage12 (some true)
            (to_number ((alookup kvs "EndTime").getD .null))
            (to_number ((alookup pkvs "timestamp").getD .null)) (some b)).2.2.1
          (some true) (to_number ((alookup kvs "StartTime").getD .null))
          ((alookup kvs "Created").getD .null)
          ((alookup kvs "Modified").getD .null)
          (pyStrip (pyStr ((alookup pkvs "topic").getD (.str ""))))).1
        (to_number ((alookup kvs "StartTime").getD .null))
        (to_number ((alookup kvs "EndTime").getD .null)) (some b) =
      b.end
    rw [h3]
    dsimp only
    rw [ha1]
    rfl

/-- Witness for the amended C7 at a concrete payload: a break that ended
50 s before the delivery timestamp is classified BreakEnd. -/
theorem c7_break_end_truthiness_witness :
    ∃ ev, parse_timesheet_webhook (Json.obj recentBreakEndKvs) = Except.ok ev ∧
      (ev.action = TimesheetAction.break_end ↔
        (1700000050 : Int) ≠ 0 ∧ ∃ w,
          to_number ((alookup recentBreakEndKvs "timestamp").getD .null) = some w ∧
          w ≠ 0 ∧ (w - 1700000050).natAbs ≤ 180) ∧
      (ev.action = TimesheetAction.break_end →
        ev.desired_dnd_status = some DesiredDndStatus.take_all_calls ∧
          ev.event_unix = recentBreakSlot.end) :=
  c7_break_end_truthiness recentBreakEndKvs recentBreakEndKvs recentBreakSlot
    1700000050 rfl rfl rfl rfl rfl rfl

end DeputyPipeline
